import Mathlib

/-!
Shallow embedding of the provider-dispatch relay endpoint of
`src/app/api/chat/route.ts` (a Next.js route handler that forwards chat
requests to one of six LLM providers).  The repository file contains two
variants of the handler: an edge-runtime variant and a nodejs-runtime
variant; both are embedded (`POST` and `POSTNode`).  The handler is pure
except for a single `fetch`; we model it as a function from the parsed
request, the process environment, and an upstream oracle to the HTTP
response paired with the list of upstream requests issued.
-/

namespace ChatRelay

/-- `type Role = "system" | "user" | "assistant"` (route.ts line 3). -/
inductive Role
  | system
  | user
  | assistant
deriving DecidableEq, Repr

/-- `type Msg = { role: Role; content: string }` (route.ts line 4). -/
structure Msg where
  role : Role
  content : String
deriving DecidableEq, Repr

/-- The wire request body (route.ts lines 6–12).  The handler's `Body` type
declares `provider`, `model`, `messages`, `apiKey`, `baseUrl`; a client may
additionally send a `temperature` member in the JSON (the spec's
`ChatRequest` has `temperature?: number` and the UI in `page.tsx` sends it),
which the handler's destructuring on line 41 simply never reads.  `none`
models an absent (or, for `messages`, non-array) member. -/
structure Body where
  provider : Option String
  model : Option String
  messages : Option (List Msg)
  apiKey : Option String
  baseUrl : Option String
  temperature : Option Rat
deriving Repr

/-- One entry of the `PROVIDERS` table (route.ts lines 20–27). -/
structure ProviderConfig where
  base : String
  env : String
  path : String
deriving DecidableEq, Repr

/-- The `PROVIDERS` table (route.ts lines 20–27), as a lookup
`(PROVIDERS as any)[provider]` keyed by the provider string. -/
def PROVIDERS (id : String) : Option ProviderConfig :=
  if id = "openai" then some ⟨"https://api.openai.com", "OPENAI_API_KEY", "/v1/chat/completions"⟩
  else if id = "together" then some ⟨"https://api.together.xyz", "TOGETHER_API_KEY", "/v1/chat/completions"⟩
  else if id = "perplexity" then some ⟨"https://api.perplexity.ai", "PPLX_API_KEY", "/v1/chat/completions"⟩
  else if id = "groq" then some ⟨"https://api.groq.com", "GROQ_API_KEY", "/openai/v1/chat/completions"⟩
  else if id = "mistral" then some ⟨"https://api.mistral.ai", "MISTRAL_API_KEY", "/v1/chat/completions"⟩
  else if id = "gemini" then some ⟨"https://generativelanguage.googleapis.com", "GEMINI_API_KEY", ""⟩
  else none

/-- JavaScript truthiness of a `string | undefined` value: `undefined` and
the empty string are falsy. -/
def truthy : Option String → Bool
  | some s => s ≠ ""
  | none => false

/-- JavaScript `a || b` on `string | undefined` operands. -/
def jsOr (a b : Option String) : Option String :=
  if truthy a then a else b

/-- JavaScript `a || "lit"` where the right operand is a string literal
(used for `model || default` and `baseUrl || p.base`). -/
def jsOrStr (a : Option String) (b : String) : String :=
  match a with
  | some s => if s = "" then b else s
  | none => b

/-- Characters `encodeURIComponent` leaves unescaped:
`A–Z a–z 0–9 - _ . ! ~ * ' ( )`. -/
def isURIUnreserved (c : Char) : Bool :=
  c.isAlpha || c.isDigit || c = '-' || c = '_' || c = '.' || c = '!' ||
  c = '~' || c = '*' || c = '\'' || c = '(' || c = ')'

/-- Upper-case hexadecimal digit. -/
def hexChar (n : Nat) : Char :=
  if n = 0 then '0' else if n = 1 then '1' else if n = 2 then '2'
  else if n = 3 then '3' else if n = 4 then '4' else if n = 5 then '5'
  else if n = 6 then '6' else if n = 7 then '7' else if n = 8 then '8'
  else if n = 9 then '9' else if n = 10 then 'A' else if n = 11 then 'B'
  else if n = 12 then 'C' else if n = 13 then 'D' else if n = 14 then 'E'
  else 'F'

/-- JavaScript `encodeURIComponent`: unreserved characters pass through,
everything else is percent-encoded byte-wise over its UTF-8 encoding. -/
def encodeURIComponent (s : String) : String :=
  String.join (s.data.map fun c =>
    if isURIUnreserved c then String.singleton c
    else String.join ((String.singleton c).toUTF8.toList.map fun b =>
      "%" ++ String.singleton (hexChar (b.toNat / 16)) ++ String.singleton (hexChar (b.toNat % 16))))

/-- Untyped JSON values, for the upstream response payload that the handler
navigates with optional chaining over `any`. -/
inductive JsonVal
  | null
  | bool (b : Bool)
  | num (q : Rat)
  | str (s : String)
  | arr (elems : List JsonVal)
  | obj (fields : List (String × JsonVal))

/-- First field of the given name in a JSON object. -/
def lookupField : List (String × JsonVal) → String → Option JsonVal
  | [], _ => none
  | (k, v) :: rest, key => if k = key then some v else lookupField rest key

/-- JavaScript `x?.k`: member access under optional chaining.  A missing
member, or a receiver that is not an object, yields `undefined` (`none`). -/
def getF : JsonVal → String → Option JsonVal
  | .obj fields, key => lookupField fields key
  | _, _ => none

/-- JavaScript `x?.[i]` on an array receiver; any other receiver yields
`undefined` (the handler only indexes values expected to be arrays). -/
def getIdx : JsonVal → Nat → Option JsonVal
  | .arr xs, i => xs.get? i
  | _, _ => none

/-- JavaScript `a ?? b`: `a` unless it is `undefined` or `null`. -/
def jsCoalesceO (a b : Option JsonVal) : Option JsonVal :=
  match a with
  | none => b
  | some .null => b
  | some v => some v

/-- JavaScript `a ?? dflt` with a non-null default, yielding a value. -/
def jsCoalesce (a : Option JsonVal) (dflt : JsonVal) : JsonVal :=
  match jsCoalesceO a (some dflt) with
  | some v => v
  | none => dflt

/-- `json?.choices?.[0]?.message?.content ?? json?.choices?.[0]?.text ??
"(no content)"` (route.ts lines 110–113). -/
def extractOpenAIReply (json : JsonVal) : JsonVal :=
  jsCoalesce
    (jsCoalesceO
      ((((getF json "choices").bind (fun x => getIdx x 0)).bind
          (fun x => getF x "message")).bind (fun x => getF x "content"))
      (((getF json "choices").bind (fun x => getIdx x 0)).bind
          (fun x => getF x "text")))
    (.str "(no content)")

/-- `json?.candidates?.[0]?.content?.parts?.[0]?.text ?? "(no content)"`
(route.ts line 71). -/
def extractGeminiReply (json : JsonVal) : JsonVal :=
  jsCoalesce
    ((((((getF json "candidates").bind (fun x => getIdx x 0)).bind
        (fun x => getF x "content")).bind (fun x => getF x "parts")).bind
        (fun x => getIdx x 0)).bind (fun x => getF x "text"))
    (.str "(no content)")

/-- One `parts` entry of a Gemini request: `{ text: content }`. -/
structure GeminiPart where
  text : String
deriving DecidableEq, Repr

/-- One `contents` entry of a Gemini request. -/
structure GeminiContent where
  role : String
  parts : List GeminiPart
deriving DecidableEq, Repr

/-- `messages.map(m => ({ role: m.role === "assistant" ? "model" : "user",
parts: [{ text: m.content }] }))` (route.ts lines 51–54). -/
def geminiContents (messages : List Msg) : List GeminiContent :=
  messages.map fun m =>
    ⟨if m.role = Role.assistant then "model" else "user", [⟨m.content⟩]⟩

/-- JSON body of the upstream `fetch`: the OpenAI-compatible shape
`{ model, messages, temperature }` (route.ts lines 97–101) or the Gemini
shape `{ contents }` — in the nodejs-runtime variant additionally carrying
`generationConfig: { temperature: 0.7 }`. -/
inductive UpstreamBody
  | openaiBody (model : String) (messages : List Msg) (temperature : Rat)
  | geminiBody (contents : List GeminiContent) (generationConfig : Option Rat)
deriving DecidableEq, Repr

/-- An outbound `fetch` (always `method: "POST"` in the handler). -/
structure UpstreamRequest where
  url : String
  headers : List (String × String)
  body : UpstreamBody
deriving DecidableEq, Repr

/-- The upstream `fetch` result: `ok`, `status`, the body read as text
(`r.text()`, used on the error path) and as JSON (`r.json()`, used on the
success path). -/
structure UpstreamResponse where
  ok : Bool
  status : Nat
  text : String
  json : JsonVal

/-- Body of the relay's HTTP response: `{ error: message }` or
`{ reply, provider, model }`. -/
inductive RespBody
  | errorBody (msg : String)
  | successBody (reply : JsonVal) (provider : String) (model : String)

/-- The relay's HTTP response: status, headers, JSON body. -/
structure RelayResponse where
  status : Nat
  headers : List (String × String)
  body : RespBody

/-- `error(status, message)` of the edge-runtime variant (route.ts
lines 29–31): JSON error body, `Content-Type` header only. -/
def errorResp (status : Nat) (message : String) : RelayResponse :=
  ⟨status, [("Content-Type", "application/json")], .errorBody message⟩

/-- `error(status, message)` of the nodejs-runtime variant (route.ts
lines 146–151): additionally sets `Cache-Control: no-store`. -/
def errorRespNode (status : Nat) (message : String) : RelayResponse :=
  ⟨status, [("Content-Type", "application/json"), ("Cache-Control", "no-store")],
    .errorBody message⟩

/-- Default-model chain of the OpenAI-compatible branch (route.ts
lines 82–88). -/
def defaultModelChain (provider : String) : String :=
  if provider = "openai" then "gpt-4o-mini"
  else if provider = "together" then "meta-llama/Llama-3.1-8B-Instruct-Turbo"
  else if provider = "perplexity" then "llama-3.1-70b-instruct"
  else if provider = "groq" then "llama3-70b-8192"
  else if provider = "mistral" then "mistral-large-latest"
  else "gpt-4o-mini"

/-- The `POST` handler, edge-runtime variant (route.ts lines 33–116).
`req = none` models a body that failed to parse as JSON.  `env` is the
process environment; `fetch` is the upstream oracle.  The result pairs the
HTTP response with the list of upstream requests issued. -/
def POST (req : Option Body) (env : String → Option String)
    (fetch : UpstreamRequest → UpstreamResponse) :
    RelayResponse × List UpstreamRequest :=
  match req with
  | none => (errorResp 400 "Invalid JSON body", [])
  | some body =>
    if ¬ truthy body.provider then (errorResp 400 "Missing 'provider'", [])
    else
      match body.messages with
      | none => (errorResp 400 "Missing 'messages'", [])
      | some messages =>
        if messages.isEmpty then (errorResp 400 "Missing 'messages'", [])
        else
          let provider := body.provider.getD ""
          if provider = "gemini" then
            let key := jsOr body.apiKey (env "GEMINI_API_KEY")
            if ¬ truthy key then
              (errorResp 401 "Missing Gemini API key (provide apiKey in body or set GEMINI_API_KEY in env)", [])
            else
              let k := key.getD ""
              let useModel := jsOrStr body.model "gemini-1.5-flash"
              let contents := geminiContents messages
              let url := "https://generativelanguage.googleapis.com" ++ "/v1beta/models/" ++ encodeURIComponent useModel ++ ":generateContent"
              let ureq : UpstreamRequest :=
                ⟨url, [("Content-Type", "application/json"), ("x-goog-api-key", k)],
                  .geminiBody contents none⟩
              let r := fetch ureq
              if ¬ r.ok then
                (errorResp r.status ("Gemini upstream error: " ++ r.text), [ureq])
              else
                (⟨200, [("Content-Type", "application/json")],
                  .successBody (extractGeminiReply r.json) "gemini" useModel⟩, [ureq])
          else
            match PROVIDERS provider with
            | none => (errorResp 400 ("Unsupported provider: " ++ provider), [])
            | some p =>
              let key := jsOr body.apiKey (env p.env)
              if ¬ truthy key then
                (errorResp 401 ("Missing API key for " ++ provider ++ " (provide apiKey in body or set " ++ p.env ++ " in env)"), [])
              else
                let k := key.getD ""
                let useModel := jsOrStr body.model (defaultModelChain provider)
                let url := jsOrStr body.baseUrl p.base ++ p.path
                let ureq : UpstreamRequest :=
                  ⟨url, [("Authorization", "Bearer " ++ k), ("Content-Type", "application/json")],
                    .openaiBody useModel messages ((7 : Rat)/10)⟩
                let r := fetch ureq
                if ¬ r.ok then
                  (errorResp r.status (provider ++ " upstream error: " ++ r.text), [ureq])
                else
                  (⟨200, [("Content-Type", "application/json")],
                    .successBody (extractOpenAIReply r.json) provider useModel⟩, [ureq])

/-- The `POST` handler, nodejs-runtime variant (route.ts lines 153–226).
It differs from the edge variant only in the error helper's and success
responses' `Cache-Control: no-store` header, shorter 401 messages, and the
`generationConfig: { temperature: 0.7 }` member of the Gemini body. -/
def POSTNode (req : Option Body) (env : String → Option String)
    (fetch : UpstreamRequest → UpstreamResponse) :
    RelayResponse × List UpstreamRequest :=
  match req with
  | none => (errorRespNode 400 "Invalid JSON body", [])
  | some body =>
    if ¬ truthy body.provider then (errorRespNode 400 "Missing 'provider'", [])
    else
      match body.messages with
      | none => (errorRespNode 400 "Missing 'messages'", [])
      | some messages =>
        if messages.isEmpty then (errorRespNode 400 "Missing 'messages'", [])
        else
          let provider := body.provider.getD ""
          if provider = "gemini" then
            let key := jsOr body.apiKey (env "GEMINI_API_KEY")
            if ¬ truthy key then
              (errorRespNode 401 "Missing Gemini API key (provide apiKey or set GEMINI_API_KEY)", [])
            else
              let k := key.getD ""
              let useModel := jsOrStr body.model "gemini-1.5-flash"
              let contents := geminiContents messages
              let url := "https://generativelanguage.googleapis.com" ++ "/v1beta/models/" ++ encodeURIComponent useModel ++ ":generateContent"
              let ureq : UpstreamRequest :=
                ⟨url, [("Content-Type", "application/json"), ("x-goog-api-key", k)],
                  .geminiBody contents (some ((7 : Rat)/10))⟩
              let r := fetch ureq
              if ¬ r.ok then
                (errorRespNode r.status ("Gemini upstream error: " ++ r.text), [ureq])
              else
                (⟨200, [("Content-Type", "application/json"), ("Cache-Control", "no-store")],
                  .successBody (extractGeminiReply r.json) "gemini" useModel⟩, [ureq])
          else
            match PROVIDERS provider with
            | none => (errorRespNode 400 ("Unsupported provider: " ++ provider), [])
            | some p =>
              let key := jsOr body.apiKey (env p.env)
              if ¬ truthy key then
                (errorRespNode 401 ("Missing API key for " ++ provider ++ " (provide apiKey or set " ++ p.env ++ ")"), [])
              else
                let k := key.getD ""
                let useModel := jsOrStr body.model (defaultModelChain provider)
                let url := jsOrStr body.baseUrl p.base ++ p.path
                let ureq : UpstreamRequest :=
                  ⟨url, [("Authorization", "Bearer " ++ k), ("Content-Type", "application/json")],
                    .openaiBody useModel messages ((7 : Rat)/10)⟩
                let r := fetch ureq
                if ¬ r.ok then
                  (errorRespNode r.status (provider ++ " upstream error: " ++ r.text), [ureq])
                else
                  (⟨200, [("Content-Type", "application/json"), ("Cache-Control", "no-store")],
                    .successBody (extractOpenAIReply r.json) provider useModel⟩, [ureq])

/-- Reply component of a success body, if any. -/
def replyOf (r : RelayResponse) : Option JsonVal :=
  match r.body with
  | .successBody rep _ _ => some rep
  | _ => none

/-- Model component of a success body, if any. -/
def modelOf (r : RelayResponse) : Option String :=
  match r.body with
  | .successBody _ _ m => some m
  | _ => none

/-- Provider component of a success body, if any. -/
def providerOf (r : RelayResponse) : Option String :=
  match r.body with
  | .successBody _ p _ => some p
  | _ => none

/-- Error message of an error body, if any. -/
def errMsgOf (r : RelayResponse) : Option String :=
  match r.body with
  | .errorBody m => some m
  | _ => none

/-- An empty process environment, used as a concrete fixture. -/
def env0 : String → Option String := fun _ => none

/-- A concrete upstream oracle answering success with an OpenAI-shaped
payload `choices[0].message.content = "hello"`. -/
def fetchHello : UpstreamRequest → UpstreamResponse := fun _ =>
  ⟨true, 200, "",
    .obj [("choices", .arr [.obj [("message", .obj [("content", .str "hello")])]])]⟩

/-- A concrete upstream oracle answering `429` with body text
`"rate limited"`. -/
def fetch429 : UpstreamRequest → UpstreamResponse := fun _ =>
  ⟨false, 429, "rate limited", .null⟩

/-- A concrete upstream oracle answering success with a Gemini-shaped
payload `candidates[0].content.parts[0].text = "hola"`. -/
def fetchHola : UpstreamRequest → UpstreamResponse := fun _ =>
  ⟨true, 200, "",
    .obj [("candidates", .arr [.obj [("content",
      .obj [("parts", .arr [.obj [("text", .str "hola")]])])]])]⟩

/-- Evaluation of the handler on the Gemini branch once validation and key
resolution succeed, for reuse across the claim theorems. -/
theorem POST_gemini_run (body : Body) (env : String → Option String)
    (fetch : UpstreamRequest → UpstreamResponse) (messages : List Msg) (k : String)
    (hp : body.provider = some "gemini") (hm : body.messages = some messages)
    (hne : messages ≠ []) (hk : jsOr body.apiKey (env "GEMINI_API_KEY") = some k)
    (hkne : k ≠ "") :
    POST (some body) env fetch =
      (let useModel := jsOrStr body.model "gemini-1.5-flash"
       let ureq : UpstreamRequest :=
         ⟨"https://generativelanguage.googleapis.com" ++ "/v1beta/models/" ++
            encodeURIComponent useModel ++ ":generateContent",
          [("Content-Type", "application/json"), ("x-goog-api-key", k)],
          .geminiBody (geminiContents messages) none⟩
       let r := fetch ureq
       if ¬ r.ok then
         (errorResp r.status ("Gemini upstream error: " ++ r.text), [ureq])
       else
         (⟨200, [("Content-Type", "application/json")],
           .successBody (extractGeminiReply r.json) "gemini" useModel⟩, [ureq])) := by
  have hmne : messages.isEmpty = false := by
    cases messages with
    | nil => exact absurd rfl hne
    | cons a t => rfl
  simp only [POST, hp, hm, hk, hmne, truthy, Option.getD_some]
  simp [hkne]

/-- Evaluation of the handler on the OpenAI-compatible branch once
validation and key resolution succeed, for reuse across the claim
theorems. -/
theorem POST_openai_run (body : Body) (env : String → Option String)
    (fetch : UpstreamRequest → UpstreamResponse) (p : String)
    (cfg : ProviderConfig) (messages : List Msg) (k : String)
    (hp : body.provider = some p) (hg : p ≠ "gemini")
    (hcfg : PROVIDERS p = some cfg) (hm : body.messages = some messages)
    (hne : messages ≠ []) (hk : jsOr body.apiKey (env cfg.env) = some k)
    (hkne : k ≠ "") :
    POST (some body) env fetch =
      (let useModel := jsOrStr body.model (defaultModelChain p)
       let ureq : UpstreamRequest :=
         ⟨jsOrStr body.baseUrl cfg.base ++ cfg.path,
          [("Authorization", "Bearer " ++ k), ("Content-Type", "application/json")],
          .openaiBody useModel messages ((7 : Rat)/10)⟩
       let r := fetch ureq
       if ¬ r.ok then
         (errorResp r.status (p ++ " upstream error: " ++ r.text), [ureq])
       else
         (⟨200, [("Content-Type", "application/json")],
           .successBody (extractOpenAIReply r.json) p useModel⟩, [ureq])) := by
  have hpne : p ≠ "" := by
    intro h
    rw [h] at hcfg
    simp [PROVIDERS] at hcfg
  have hmne : messages.isEmpty = false := by
    cases messages with
    | nil => exact absurd rfl hne
    | cons a t => rfl
  simp only [POST, hp, hm, hcfg, hmne, truthy, Option.getD_some]
  simp [hpne, hg, hk, hkne]

/-- Evaluation of the handler on the Gemini branch when no key resolves:
`401`, no upstream call. -/
theorem POST_gemini_401 (body : Body) (env : String → Option String)
    (fetch : UpstreamRequest → UpstreamResponse) (messages : List Msg)
    (hp : body.provider = some "gemini") (hm : body.messages = some messages)
    (hne : messages ≠ [])
    (hk : truthy (jsOr body.apiKey (env "GEMINI_API_KEY")) = false) :
    POST (some body) env fetch =
      (errorResp 401 "Missing Gemini API key (provide apiKey in body or set GEMINI_API_KEY in env)", []) := by
  have hmne : messages.isEmpty = false := by
    cases messages with
    | nil => exact absurd rfl hne
    | cons a t => rfl
  simp only [POST, hp, hm, hmne, hk, Option.getD_some]
  simp [truthy]

/-- Evaluation of the handler on the OpenAI-compatible branch when no key
resolves: `401`, no upstream call. -/
theorem POST_openai_401 (body : Body) (env : String → Option String)
    (fetch : UpstreamRequest → UpstreamResponse) (p : String)
    (cfg : ProviderConfig) (messages : List Msg)
    (hp : body.provider = some p) (hg : p ≠ "gemini")
    (hcfg : PROVIDERS p = some cfg) (hm : body.messages = some messages)
    (hne : messages ≠ [])
    (hk : truthy (jsOr body.apiKey (env cfg.env)) = false) :
    POST (some body) env fetch =
      (errorResp 401 ("Missing API key for " ++ p ++ " (provide apiKey in body or set " ++ cfg.env ++ " in env)"), []) := by
  have hpne : p ≠ "" := by
    intro h
    rw [h] at hcfg
    simp [PROVIDERS] at hcfg
  have hmne : messages.isEmpty = false := by
    cases messages with
    | nil => exact absurd rfl hne
    | cons a t => rfl
  simp only [POST, hp, hm, hcfg, hmne, hk, Option.getD_some]
  simp [truthy, hpne, hg]

/-- Every response of the nodejs-runtime handler carries
`Cache-Control: no-store` (the error helper and both success returns set
it). -/
theorem POSTNode_no_store (req : Option Body) (env : String → Option String)
    (fetch : UpstreamRequest → UpstreamResponse) :
    ("Cache-Control", "no-store") ∈ (POSTNode req env fetch).1.headers := by
  cases req with
  | none => simp [POSTNode, errorRespNode]
  | some body =>
    simp only [POSTNode]
    repeat' split
    all_goals simp [errorRespNode]

/-- A concrete transcript message. -/
def msg0 : Msg := ⟨Role.user, "hi"⟩

/-- C1: the claim says the upstream `temperature` equals the client-supplied
one when present and 0.7 otherwise.  The handler's `Body` type has no
`temperature` member and the upstream body hardcodes `temperature: 0.7`
(route.ts line 100), even though the client UI (`page.tsx`) sends a
`temperature` member: a request carrying `temperature = 0.2` still produces
an upstream body with `temperature = 0.7`. -/
theorem C1_temperature_hardcoded :
    ((POST (some ⟨some "openai", some "gpt-4o-mini", some [msg0], some "sk-test", none,
        some ((2 : Rat)/10)⟩) env0 fetchHello).2.map fun u => u.body) =
      [UpstreamBody.openaiBody "gpt-4o-mini" [msg0] ((7 : Rat)/10)] ∧
    ((2 : Rat)/10) < ((7 : Rat)/10) := by
  constructor
  · rfl
  · norm_num

/-- C2 counterexample: in the edge-runtime variant a successful (status
200) response carries only a `Content-Type` header — no cache-control
directive at all. -/
theorem C2_edge_success_no_cache_header :
    (POST (some ⟨some "openai", none, some [msg0], some "sk-test", none, none⟩)
        env0 fetchHello).1.status = 200 ∧
    ((POST (some ⟨some "openai", none, some [msg0], some "sk-test", none, none⟩)
        env0 fetchHello).1.headers.map Prod.fst) = ["Content-Type"] := by
  constructor
  · rfl
  · rfl

/-- C2 (amended): every successful (status 200) response of the
nodejs-runtime variant of the handler carries `Cache-Control: no-store`;
the edge-runtime variant sets no cache-control header on success. -/
theorem C2_node_success_no_store (req : Option Body) (env : String → Option String)
    (fetch : UpstreamRequest → UpstreamResponse)
    (_h : (POSTNode req env fetch).1.status = 200) :
    ("Cache-Control", "no-store") ∈ (POSTNode req env fetch).1.headers :=
  POSTNode_no_store req env fetch

/-- C2 witness: a concrete successful run of the nodejs-runtime handler. -/
theorem C2_node_success_no_store_witness :
    ("Cache-Control", "no-store") ∈
      (POSTNode (some ⟨some "openai", none, some [msg0], some "sk-test", none, none⟩)
        env0 fetchHello).1.headers :=
  C2_node_success_no_store
    (some ⟨some "openai", none, some [msg0], some "sk-test", none, none⟩)
    env0 fetchHello rfl

/-- C3 counterexample: an invocation whose body fails to parse performs
zero outbound calls, not exactly one. -/
theorem C3_zero_calls_on_invalid_body :
    (POST none env0 fetchHello).2 = [] ∧ (POST none env0 fetchHello).2.length < 1 := by
  constructor
  · rfl
  · decide

/-- C3 (amended): every invocation performs at most one outbound call, and
an invocation that performs none is a local rejection with status 400 or
401 (side effects beyond the single `fetch` do not exist: the handler is a
pure function of the request, the environment and the upstream oracle). -/
theorem C3_at_most_one_upstream_call (req : Option Body)
    (env : String → Option String) (fetch : UpstreamRequest → UpstreamResponse) :
    (POST req env fetch).2.length ≤ 1 ∧
    ((POST req env fetch).2 = [] →
      (POST req env fetch).1.status = 400 ∨ (POST req env fetch).1.status = 401) := by
  cases req with
  | none => exact ⟨by simp [POST], fun _ => Or.inl rfl⟩
  | some body =>
    simp only [POST]
    repeat' split
    all_goals simp [errorResp]

/-- C3 witness: the amended statement at a concrete rejected invocation. -/
theorem C3_at_most_one_upstream_call_witness :
    (POST none env0 fetchHello).2.length ≤ 1 ∧
    ((POST none env0 fetchHello).1.status = 400 ∨
      (POST none env0 fetchHello).1.status = 401) :=
  ⟨(C3_at_most_one_upstream_call none env0 fetchHello).1,
   (C3_at_most_one_upstream_call none env0 fetchHello).2 rfl⟩

/-- C4: the four validation steps fire in order with status 400: malformed
body; then missing `provider` (message mentions "provider"); then a
`messages` member that is absent/non-array or empty; then an unknown
provider, named in the message. -/
theorem C4_validation_order :
    (∀ (env : String → Option String) (fetch : UpstreamRequest → UpstreamResponse),
      (POST none env fetch).1 = errorResp 400 "Invalid JSON body") ∧
    (∀ (body : Body) (env : String → Option String) (fetch : UpstreamRequest → UpstreamResponse),
      truthy body.provider = false →
      (POST (some body) env fetch).1 = errorResp 400 "Missing 'provider'" ∧
      "provider".data <:+: "Missing 'provider'".data) ∧
    (∀ (body : Body) (env : String → Option String) (fetch : UpstreamRequest → UpstreamResponse),
      truthy body.provider = true →
      (body.messages = none ∨ body.messages = some []) →
      (POST (some body) env fetch).1 = errorResp 400 "Missing 'messages'") ∧
    (∀ (body : Body) (env : String → Option String) (fetch : UpstreamRequest → UpstreamResponse)
      (p : String) (messages : List Msg),
      body.provider = some p → p ≠ "" → PROVIDERS p = none →
      body.messages = some messages → messages ≠ [] →
      (POST (some body) env fetch).1 = errorResp 400 ("Unsupported provider: " ++ p)) := by
  refine ⟨fun env fetch => rfl, fun body env fetch h => ⟨?_, by decide⟩, ?_, ?_⟩
  · simp [POST, h]
  · intro body env fetch h hm
    rcases hm with hm | hm <;> simp [POST, h, hm]
  · intro body env fetch p messages hp hpne hcfg hm hne
    have hg : p ≠ "gemini" := by
      intro h
      rw [h] at hcfg
      simp [PROVIDERS] at hcfg
    have hmne : messages.isEmpty = false := by
      cases messages with
      | nil => exact absurd rfl hne
      | cons a t => rfl
    simp only [POST, hp, hm, hmne, hcfg, Option.getD_some]
    simp [truthy, hpne, hg]

/-- C4 witness: the four validation outcomes at concrete inputs. -/
theorem C4_validation_order_witness :
    (POST none env0 fetchHello).1 = errorResp 400 "Invalid JSON body" ∧
    (POST (some ⟨none, none, none, none, none, none⟩) env0 fetchHello).1 =
      errorResp 400 "Missing 'provider'" ∧
    (POST (some ⟨some "openai", none, some [], none, none, none⟩) env0 fetchHello).1 =
      errorResp 400 "Missing 'messages'" ∧
    (POST (some ⟨some "unknown-x", none, some [msg0], none, none, none⟩) env0 fetchHello).1 =
      errorResp 400 ("Unsupported provider: " ++ "unknown-x") :=
  ⟨C4_validation_order.1 env0 fetchHello,
   (C4_validation_order.2.1 ⟨none, none, none, none, none, none⟩ env0 fetchHello rfl).1,
   C4_validation_order.2.2.1 ⟨some "openai", none, some [], none, none, none⟩ env0 fetchHello
     rfl (Or.inr rfl),
   C4_validation_order.2.2.2 ⟨some "unknown-x", none, some [msg0], none, none, none⟩ env0
     fetchHello "unknown-x" [msg0] rfl (by decide) rfl rfl (by decide)⟩

/-- C5: key resolution — a truthy client-supplied `apiKey` is the key used
for upstream authorization (bearer token for OpenAI-compatible providers,
`x-goog-api-key` for Gemini), whatever the environment holds; when neither
the client key nor the environment variable is truthy the result is 401
with a message that is a constant determined by the provider alone (so it
names the configured environment variable and cannot echo a client key:
this branch is only reachable with an absent or empty client key). -/
theorem C5_key_precedence (body : Body) (env : String → Option String)
    (fetch : UpstreamRequest → UpstreamResponse) (p : String)
    (cfg : ProviderConfig) (messages : List Msg)
    (hp : body.provider = some p) (hcfg : PROVIDERS p = some cfg)
    (hm : body.messages = some messages) (hne : messages ≠ []) :
    (∀ k, body.apiKey = some k → k ≠ "" →
      ∃ u, (POST (some body) env fetch).2 = [u] ∧
        ((p = "gemini" ∧ ("x-goog-api-key", k) ∈ u.headers) ∨
         (p ≠ "gemini" ∧ ("Authorization", "Bearer " ++ k) ∈ u.headers))) ∧
    (truthy body.apiKey = false → truthy (env cfg.env) = false →
      (POST (some body) env fetch).1 = errorResp 401
        (if p = "gemini" then
          "Missing Gemini API key (provide apiKey in body or set GEMINI_API_KEY in env)"
         else
          "Missing API key for " ++ p ++ " (provide apiKey in body or set " ++ cfg.env ++ " in env)") ∧
      cfg.env.data <:+:
        (if p = "gemini" then
          "Missing Gemini API key (provide apiKey in body or set GEMINI_API_KEY in env)"
         else
          "Missing API key for " ++ p ++ " (provide apiKey in body or set " ++ cfg.env ++ " in env)").data) := by
  constructor
  · intro k hak hkne
    by_cases hg : p = "gemini"
    · subst hg
      have hkey : jsOr body.apiKey (env "GEMINI_API_KEY") = some k := by
        simp [jsOr, truthy, hak, hkne]
      rw [POST_gemini_run body env fetch messages k hp hm hne hkey hkne]
      dsimp only
      split
      · exact ⟨_, rfl, Or.inl ⟨rfl, by simp⟩⟩
      · exact ⟨_, rfl, Or.inl ⟨rfl, by simp⟩⟩
    · have hkey : jsOr body.apiKey (env cfg.env) = some k := by
        simp [jsOr, truthy, hak, hkne]
      rw [POST_openai_run body env fetch p cfg messages k hp hg hcfg hm hne hkey hkne]
      dsimp only
      split
      · exact ⟨_, rfl, Or.inr ⟨hg, by simp⟩⟩
      · exact ⟨_, rfl, Or.inr ⟨hg, by simp⟩⟩
  · intro hak henv
    have hkey : truthy (jsOr body.apiKey (env cfg.env)) = false := by
      have h0 : truthy (some "") = false := rfl
      simp [jsOr, hak, h0, henv]
    by_cases hg : p = "gemini"
    · subst hg
      have hc : cfg = ⟨"https://generativelanguage.googleapis.com", "GEMINI_API_KEY", ""⟩ := by
        have : PROVIDERS "gemini" =
            some ⟨"https://generativelanguage.googleapis.com", "GEMINI_API_KEY", ""⟩ := rfl
        rw [this] at hcfg
        exact (Option.some_injective _ hcfg).symm
      subst hc
      rw [POST_gemini_401 body env fetch messages hp hm hne hkey]
      exact ⟨by simp [errorResp], by simp; decide⟩
    · rw [POST_openai_401 body env fetch p cfg messages hp hg hcfg hm hne hkey]
      refine ⟨by simp [errorResp, hg], ?_⟩
      simp only [hg, if_neg, ite_false]
      rw [show ("Missing API key for " ++ p ++ " (provide apiKey in body or set " ++ cfg.env ++ " in env)") =
        ("Missing API key for " ++ p ++ " (provide apiKey in body or set ") ++ (cfg.env ++ " in env)") by
          simp [String.append_assoc]]
      rw [String.data_append, String.data_append]
      exact ⟨("Missing API key for " ++ p ++ " (provide apiKey in body or set ").data,
        " in env)".data, by simp⟩

/-- C5 witness: with a client key present it is the one sent upstream; with
no key at all the result is the 401 naming the environment variable. -/
theorem C5_key_precedence_witness :
    (∃ u, (POST (some ⟨some "openai", none, some [msg0], some "sk-client", none, none⟩)
        (fun n => if n = "OPENAI_API_KEY" then some "env-key" else none) fetchHello).2 = [u] ∧
      (("openai" : String) = "gemini" ∧ ("x-goog-api-key", "sk-client") ∈ u.headers ∨
       ("openai" : String) ≠ "gemini" ∧ ("Authorization", "Bearer " ++ "sk-client") ∈ u.headers)) ∧
    ((POST (some ⟨some "openai", none, some [msg0], none, none, none⟩) env0 fetchHello).1 =
      errorResp 401
        (if ("openai" : String) = "gemini" then
          "Missing Gemini API key (provide apiKey in body or set GEMINI_API_KEY in env)"
         else
          "Missing API key for " ++ "openai" ++ " (provide apiKey in body or set " ++
            "OPENAI_API_KEY" ++ " in env)")) :=
  ⟨(C5_key_precedence ⟨some "openai", none, some [msg0], some "sk-client", none, none⟩
      (fun n => if n = "OPENAI_API_KEY" then some "env-key" else none) fetchHello
      "openai" ⟨"https://api.openai.com", "OPENAI_API_KEY", "/v1/chat/completions"⟩ [msg0]
      rfl rfl rfl (by decide)).1 "sk-client" rfl (by decide),
   ((C5_key_precedence ⟨some "openai", none, some [msg0], none, none, none⟩ env0 fetchHello
      "openai" ⟨"https://api.openai.com", "OPENAI_API_KEY", "/v1/chat/completions"⟩ [msg0]
      rfl rfl rfl (by decide)).2 rfl rfl).1⟩

/-- C6: the Gemini upstream POST goes to
`base + "/v1beta/models/" + urlEncode(model) + ":generateContent"`, carries
the resolved key in the `x-goog-api-key` header (no `Authorization` header
at all), and its `contents` sequence is exactly the transcript mapped in
order to `{ role: "model" if assistant else "user", parts: [{text}] }`. -/
theorem C6_gemini_request (body : Body) (env : String → Option String)
    (fetch : UpstreamRequest → UpstreamResponse) (messages : List Msg) (k : String)
    (hp : body.provider = some "gemini") (hm : body.messages = some messages)
    (hne : messages ≠ [])
    (hk : jsOr body.apiKey (env "GEMINI_API_KEY") = some k) (hkne : k ≠ "") :
    ∃ u, (POST (some body) env fetch).2 = [u] ∧
      u.url = "https://generativelanguage.googleapis.com" ++ "/v1beta/models/" ++
        encodeURIComponent (jsOrStr body.model "gemini-1.5-flash") ++ ":generateContent" ∧
      ("x-goog-api-key", k) ∈ u.headers ∧
      (∀ v, ("Authorization", v) ∉ u.headers) ∧
      u.body = .geminiBody (messages.map fun m =>
        ⟨if m.role = Role.assistant then "model" else "user", [⟨m.content⟩]⟩) none := by
  rw [POST_gemini_run body env fetch messages k hp hm hne hk hkne]
  dsimp only
  split
  · exact ⟨_, rfl, rfl, by simp, by simp, rfl⟩
  · exact ⟨_, rfl, rfl, by simp, by simp, rfl⟩

/-- C6 witness: the spec's example transcript `[{role:"user", content:"hi"}]`
yields a single-entry `contents` with role `"user"` and `parts:[{text:"hi"}]`. -/
theorem C6_gemini_request_witness :
    ∃ u, (POST (some ⟨some "gemini", none, some [msg0], some "g-key", none, none⟩)
        env0 fetchHola).2 = [u] ∧
      u.url = "https://generativelanguage.googleapis.com" ++ "/v1beta/models/" ++
        encodeURIComponent (jsOrStr (none : Option String) "gemini-1.5-flash") ++
        ":generateContent" ∧
      ("x-goog-api-key", "g-key") ∈ u.headers ∧
      (∀ v, ("Authorization", v) ∉ u.headers) ∧
      u.body = .geminiBody ([msg0].map fun m =>
        ⟨if m.role = Role.assistant then "model" else "user", [⟨m.content⟩]⟩) none :=
  C6_gemini_request ⟨some "gemini", none, some [msg0], some "g-key", none, none⟩
    env0 fetchHola [msg0] "g-key" rfl rfl (by decide) (by decide) (by decide)

/-- Spec-side view of one entry of an OpenAI-compatible `choices` array:
an optional `message.content` string and an optional `text` string. -/
structure SpecChoice where
  message : Option String
  text : Option String

/-- JSON encoding of a spec-side `choices` payload, omitting absent
members. -/
def encodeChoices (choices : List SpecChoice) : JsonVal :=
  .obj [("choices", .arr (choices.map fun c =>
    .obj ((match c.message with
           | some s => [("message", .obj [("content", .str s)])]
           | none => []) ++
          (match c.text with
           | some s => [("text", .str s)]
           | none => []))))]

/-- Modelled from the spec: the reply selection rule for OpenAI-compatible
providers — "first choice's message content, falling back to first choice's
plain text field, falling back to the literal placeholder `\"(no content)\"`". -/
def specOpenAIReply (choices : List SpecChoice) : String :=
  match choices.head? with
  | none => "(no content)"
  | some c =>
    match c.message with
    | some s => s
    | none => c.text.getD "(no content)"

/-- Spec-side view of one entry of a Gemini `candidates` array: the list of
its content parts, each with an optional `text` string. -/
structure SpecCandidate where
  parts : List (Option String)

/-- JSON encoding of a spec-side `candidates` payload, omitting absent
members. -/
def encodeCandidates (cands : List SpecCandidate) : JsonVal :=
  .obj [("candidates", .arr (cands.map fun c =>
    .obj [("content", .obj [("parts", .arr (c.parts.map fun t =>
      .obj (match t with
            | some s => [("text", .str s)]
            | none => [])))])]))]

/-- Modelled from the spec: the reply selection rule for the
distinct-shape provider — "first candidate's first content part's text,
falling back to the same placeholder". -/
def specGeminiReply (cands : List SpecCandidate) : String :=
  match cands.head? with
  | none => "(no content)"
  | some c =>
    match c.parts.head? with
    | none => "(no content)"
    | some t => t.getD "(no content)"

/-- The handler's optional-chaining extraction agrees with the spec's
selection rule on every OpenAI-shaped payload. -/
theorem extractOpenAIReply_encode (choices : List SpecChoice) :
    extractOpenAIReply (encodeChoices choices) = .str (specOpenAIReply choices) := by
  cases choices with
  | nil => rfl
  | cons c rest =>
    obtain ⟨m, t⟩ := c
    cases m <;> cases t <;> rfl

/-- The handler's optional-chaining extraction agrees with the spec's
selection rule on every Gemini-shaped payload. -/
theorem extractGeminiReply_encode (cands : List SpecCandidate) :
    extractGeminiReply (encodeCandidates cands) = .str (specGeminiReply cands) := by
  cases cands with
  | nil => rfl
  | cons c rest =>
    obtain ⟨parts⟩ := c
    cases parts with
    | nil => rfl
    | cons t ps => cases t <;> rfl

/-- C7: on upstream success the reply is selected exactly as the spec
states: for OpenAI-compatible providers the first choice's message content,
else the first choice's plain text field, else `"(no content)"`; for Gemini
the first candidate's first content part's text, else `"(no content)"`. -/
theorem C7_reply_extraction :
    (∀ (body : Body) (env : String → Option String)
      (fetch : UpstreamRequest → UpstreamResponse) (p : String)
      (cfg : ProviderConfig) (messages : List Msg) (k : String)
      (choices : List SpecChoice),
      body.provider = some p → p ≠ "gemini" → PROVIDERS p = some cfg →
      body.messages = some messages → messages ≠ [] →
      jsOr body.apiKey (env cfg.env) = some k → k ≠ "" →
      (∀ u, fetch u = ⟨true, 200, "", encodeChoices choices⟩) →
      replyOf (POST (some body) env fetch).1 = some (.str (specOpenAIReply choices))) ∧
    (∀ (body : Body) (env : String → Option String)
      (fetch : UpstreamRequest → UpstreamResponse) (messages : List Msg)
      (k : String) (cands : List SpecCandidate),
      body.provider = some "gemini" →
      body.messages = some messages → messages ≠ [] →
      jsOr body.apiKey (env "GEMINI_API_KEY") = some k → k ≠ "" →
      (∀ u, fetch u = ⟨true, 200, "", encodeCandidates cands⟩) →
      replyOf (POST (some body) env fetch).1 = some (.str (specGeminiReply cands))) := by
  constructor
  · intro body env fetch p cfg messages k choices hp hg hcfg hm hne hk hkne hfetch
    rw [POST_openai_run body env fetch p cfg messages k hp hg hcfg hm hne hk hkne]
    dsimp only
    rw [hfetch]
    simp [replyOf, extractOpenAIReply_encode]
  · intro body env fetch messages k cands hp hm hne hk hkne hfetch
    rw [POST_gemini_run body env fetch messages k hp hm hne hk hkne]
    dsimp only
    rw [hfetch]
    simp [replyOf, extractGeminiReply_encode]

/-- C7 witness: `choices[0].message.content = "hello"` yields reply
`"hello"`; a Gemini payload whose first candidate's first part's text is
`"hola"` yields reply `"hola"`. -/
theorem C7_reply_extraction_witness :
    replyOf (POST (some ⟨some "openai", none, some [msg0], some "sk-test", none, none⟩)
        env0 (fun _ => ⟨true, 200, "", encodeChoices [⟨some "hello", none⟩]⟩)).1 =
      some (.str "hello") ∧
    replyOf (POST (some ⟨some "gemini", none, some [msg0], some "g-key", none, none⟩)
        env0 (fun _ => ⟨true, 200, "", encodeCandidates [⟨[some "hola"]⟩]⟩)).1 =
      some (.str "hola") :=
  ⟨C7_reply_extraction.1 ⟨some "openai", none, some [msg0], some "sk-test", none, none⟩
      env0 (fun _ => ⟨true, 200, "", encodeChoices [⟨some "hello", none⟩]⟩)
      "openai" ⟨"https://api.openai.com", "OPENAI_API_KEY", "/v1/chat/completions"⟩
      [msg0] "sk-test" [⟨some "hello", none⟩]
      rfl (by decide) rfl rfl (by decide) (by decide) (by decide) (fun _ => rfl),
   C7_reply_extraction.2 ⟨some "gemini", none, some [msg0], some "g-key", none, none⟩
      env0 (fun _ => ⟨true, 200, "", encodeCandidates [⟨[some "hola"]⟩]⟩)
      [msg0] "g-key" [⟨[some "hola"]⟩]
      rfl rfl (by decide) (by decide) (by decide) (fun _ => rfl)⟩

/-- C8: an upstream non-success status is passed through as the relay's
status, and the error text is the upstream body text tagged with the
provider's name (`"Gemini"` for the distinct-shape provider, the provider
id itself for the rest); in particular the upstream text is contained in
the error message. -/
theorem C8_upstream_error (body : Body) (env : String → Option String)
    (fetch : UpstreamRequest → UpstreamResponse) (p : String)
    (cfg : ProviderConfig) (messages : List Msg) (k : String) (s : Nat) (t : String)
    (hp : body.provider = some p) (hcfg : PROVIDERS p = some cfg)
    (hm : body.messages = some messages) (hne : messages ≠ [])
    (hk : jsOr body.apiKey (env cfg.env) = some k) (hkne : k ≠ "")
    (hfetch : ∀ u, fetch u = ⟨false, s, t, .null⟩) :
    (POST (some body) env fetch).1.status = s ∧
    errMsgOf (POST (some body) env fetch).1 =
      some ((if p = "gemini" then "Gemini" else p) ++ " upstream error: " ++ t) ∧
    t.data <:+: ((if p = "gemini" then "Gemini" else p) ++ " upstream error: " ++ t).data := by
  have hinf : t.data <:+:
      ((if p = "gemini" then "Gemini" else p) ++ " upstream error: " ++ t).data := by
    rw [String.data_append]
    exact ⟨((if p = "gemini" then "Gemini" else p) ++ " upstream error: ").data, [], by simp⟩
  by_cases hg : p = "gemini"
  · subst hg
    have hc : cfg = ⟨"https://generativelanguage.googleapis.com", "GEMINI_API_KEY", ""⟩ := by
      have hpr : PROVIDERS "gemini" =
          some ⟨"https://generativelanguage.googleapis.com", "GEMINI_API_KEY", ""⟩ := rfl
      rw [hpr] at hcfg
      exact (Option.some_injective _ hcfg).symm
    subst hc
    rw [POST_gemini_run body env fetch messages k hp hm hne hk hkne]
    dsimp only
    rw [hfetch]
    refine ⟨by simp [errorResp], by simp [errorResp, errMsgOf], hinf⟩
  · rw [POST_openai_run body env fetch p cfg messages k hp hg hcfg hm hne hk hkne]
    dsimp only
    rw [hfetch]
    refine ⟨by simp [errorResp], by simp [errorResp, errMsgOf, hg], hinf⟩

/-- C8 witness: a 429 upstream with body text `"rate limited"` surfaces as
status 429 with the text inside the tagged error message. -/
theorem C8_upstream_error_witness :
    (POST (some ⟨some "openai", none, some [msg0], some "sk-test", none, none⟩)
        env0 fetch429).1.status = 429 ∧
    errMsgOf (POST (some ⟨some "openai", none, some [msg0], some "sk-test", none, none⟩)
        env0 fetch429).1 =
      some ((if ("openai" : String) = "gemini" then "Gemini" else "openai") ++
        " upstream error: " ++ "rate limited") ∧
    "rate limited".data <:+:
      ((if ("openai" : String) = "gemini" then "Gemini" else "openai") ++
        " upstream error: " ++ "rate limited").data :=
  C8_upstream_error ⟨some "openai", none, some [msg0], some "sk-test", none, none⟩
    env0 fetch429 "openai" ⟨"https://api.openai.com", "OPENAI_API_KEY", "/v1/chat/completions"⟩
    [msg0] "sk-test" 429 "rate limited"
    rfl rfl rfl (by decide) (by decide) (by decide) (fun _ => rfl)

/-- Modelled from the spec/code: each provider's configured default model —
the literal fallbacks of the edge handler's if/else chain and the Gemini
literal `"gemini-1.5-flash"`. -/
def defaultModel (p : String) : String :=
  if p = "gemini" then "gemini-1.5-flash" else defaultModelChain p

/-- C9: on a valid keyed request with an ok upstream, the success result's
`model` is the caller's `model` verbatim when non-empty, else the
provider's configured default. -/
theorem C9_model_resolution (body : Body) (env : String → Option String)
    (fetch : UpstreamRequest → UpstreamResponse) (p : String)
    (cfg : ProviderConfig) (messages : List Msg) (k : String)
    (hp : body.provider = some p) (hcfg : PROVIDERS p = some cfg)
    (hm : body.messages = some messages) (hne : messages ≠ [])
    (hk : jsOr body.apiKey (env cfg.env) = some k) (hkne : k ≠ "")
    (hok : ∀ u, (fetch u).ok = true) :
    (POST (some body) env fetch).1.status = 200 ∧
    modelOf (POST (some body) env fetch).1 =
      some (jsOrStr body.model (defaultModel p)) := by
  by_cases hg : p = "gemini"
  · subst hg
    have hc : cfg = ⟨"https://generativelanguage.googleapis.com", "GEMINI_API_KEY", ""⟩ := by
      have hpr : PROVIDERS "gemini" =
          some ⟨"https://generativelanguage.googleapis.com", "GEMINI_API_KEY", ""⟩ := rfl
      rw [hpr] at hcfg
      exact (Option.some_injective _ hcfg).symm
    subst hc
    rw [POST_gemini_run body env fetch messages k hp hm hne hk hkne]
    dsimp only
    simp [hok, modelOf, defaultModel]
  · rw [POST_openai_run body env fetch p cfg messages k hp hg hcfg hm hne hk hkne]
    dsimp only
    simp [hok, modelOf, defaultModel, hg]

/-- C9 witness: a caller-supplied model is used verbatim; an absent model
falls back to the provider default. -/
theorem C9_model_resolution_witness :
    ((POST (some ⟨some "openai", some "custom-model", some [msg0], some "sk-test", none, none⟩)
        env0 fetchHello).1.status = 200 ∧
      modelOf (POST (some ⟨some "openai", some "custom-model", some [msg0], some "sk-test", none, none⟩)
        env0 fetchHello).1 = some (jsOrStr (some "custom-model") (defaultModel "openai"))) ∧
    modelOf (POST (some ⟨some "mistral", none, some [msg0], some "sk-test", none, none⟩)
        env0 fetchHello).1 = some (jsOrStr (none : Option String) (defaultModel "mistral")) :=
  ⟨C9_model_resolution ⟨some "openai", some "custom-model", some [msg0], some "sk-test", none, none⟩
      env0 fetchHello "openai" ⟨"https://api.openai.com", "OPENAI_API_KEY", "/v1/chat/completions"⟩
      [msg0] "sk-test" rfl rfl rfl (by decide) (by decide) (by decide) (fun _ => rfl),
   (C9_model_resolution ⟨some "mistral", none, some [msg0], some "sk-test", none, none⟩
      env0 fetchHello "mistral" ⟨"https://api.mistral.ai", "MISTRAL_API_KEY", "/v1/chat/completions"⟩
      [msg0] "sk-test" rfl rfl rfl (by decide) (by decide) (by decide) (fun _ => rfl)).2⟩

/-- C10: a client `apiKey` equal to the empty string is falsy under the
`||` fallback, so the environment variable's value is what reaches the
upstream authorization material, and with the variable unset (or empty)
the handler answers 401. -/
theorem C10_empty_apiKey (body : Body) (env : String → Option String)
    (fetch : UpstreamRequest → UpstreamResponse) (p : String)
    (cfg : ProviderConfig) (messages : List Msg)
    (hp : body.provider = some p) (hcfg : PROVIDERS p = some cfg)
    (hm : body.messages = some messages) (hne : messages ≠ [])
    (hak : body.apiKey = some "") :
    (∀ v, env cfg.env = some v → v ≠ "" →
      ∃ u, (POST (some body) env fetch).2 = [u] ∧
        ((p = "gemini" ∧ ("x-goog-api-key", v) ∈ u.headers) ∨
         (p ≠ "gemini" ∧ ("Authorization", "Bearer " ++ v) ∈ u.headers))) ∧
    (truthy (env cfg.env) = false →
      (POST (some body) env fetch).1.status = 401) := by
  constructor
  · intro v hv hvne
    have hkey : jsOr body.apiKey (env cfg.env) = some v := by
      simp [jsOr, truthy, hak, hv]
    by_cases hg : p = "gemini"
    · subst hg
      have hc : cfg = ⟨"https://generativelanguage.googleapis.com", "GEMINI_API_KEY", ""⟩ := by
        have hpr : PROVIDERS "gemini" =
            some ⟨"https://generativelanguage.googleapis.com", "GEMINI_API_KEY", ""⟩ := rfl
        rw [hpr] at hcfg
        exact (Option.some_injective _ hcfg).symm
      subst hc
      rw [POST_gemini_run body env fetch messages v hp hm hne hkey hvne]
      dsimp only
      split
      · exact ⟨_, rfl, Or.inl ⟨rfl, by simp⟩⟩
      · exact ⟨_, rfl, Or.inl ⟨rfl, by simp⟩⟩
    · rw [POST_openai_run body env fetch p cfg messages v hp hg hcfg hm hne hkey hvne]
      dsimp only
      split
      · exact ⟨_, rfl, Or.inr ⟨hg, by simp⟩⟩
      · exact ⟨_, rfl, Or.inr ⟨hg, by simp⟩⟩
  · intro henv
    have hkey : truthy (jsOr body.apiKey (env cfg.env)) = false := by
      have h0 : truthy (some "") = false := rfl
      simp [jsOr, hak, h0, henv]
    by_cases hg : p = "gemini"
    · subst hg
      have hc : cfg = ⟨"https://generativelanguage.googleapis.com", "GEMINI_API_KEY", ""⟩ := by
        have hpr : PROVIDERS "gemini" =
            some ⟨"https://generativelanguage.googleapis.com", "GEMINI_API_KEY", ""⟩ := rfl
        rw [hpr] at hcfg
        exact (Option.some_injective _ hcfg).symm
      subst hc
      rw [POST_gemini_401 body env fetch messages hp hm hne hkey]
      rfl
    · rw [POST_openai_401 body env fetch p cfg messages hp hg hcfg hm hne hkey]
      rfl

/-- C10 witness: with `apiKey: ""` and the environment variable set, the
environment value is the bearer key sent upstream; with the variable unset
the handler answers 401. -/
theorem C10_empty_apiKey_witness :
    (∃ u, (POST (some ⟨some "openai", none, some [msg0], some "", none, none⟩)
        (fun n => if n = "OPENAI_API_KEY" then some "env-key" else none) fetchHello).2 = [u] ∧
      (("openai" : String) = "gemini" ∧ ("x-goog-api-key", "env-key") ∈ u.headers ∨
       ("openai" : String) ≠ "gemini" ∧ ("Authorization", "Bearer " ++ "env-key") ∈ u.headers)) ∧
    (POST (some ⟨some "openai", none, some [msg0], some "", none, none⟩)
        env0 fetchHello).1.status = 401 :=
  ⟨(C10_empty_apiKey ⟨some "openai", none, some [msg0], some "", none, none⟩
      (fun n => if n = "OPENAI_API_KEY" then some "env-key" else none) fetchHello
      "openai" ⟨"https://api.openai.com", "OPENAI_API_KEY", "/v1/chat/completions"⟩ [msg0]
      rfl rfl rfl (by decide) rfl).1 "env-key" rfl (by decide),
   (C10_empty_apiKey ⟨some "openai", none, some [msg0], some "", none, none⟩
      env0 fetchHello
      "openai" ⟨"https://api.openai.com", "OPENAI_API_KEY", "/v1/chat/completions"⟩ [msg0]
      rfl rfl rfl (by decide) rfl).2 rfl⟩

end ChatRelay
